import Mathlib

/-!
# Send message descriptors

A shallow embedding of the message descriptor `send_t`, its 2D tile geometry
`block_2d_info_t` and the send hint `send_hint_t` of
`src/gpu/jit/conv/message_support.hpp`, followed by the properties of the
derived quantities (access, payload, header and mask sizes), of construction
and of equality and hashing.

Conventions of the embedding:
* a C++ `int` is 32 bits wide: its value is an `Int`, and the result of every
  `+`, `-`, `*` and `/` on `int` is reduced to 32-bit two's complement by
  `int32` (signed overflow wraps around, as it does on the usual targets);
  `/` and `%` are the truncating `Int.tdiv` and `Int.tmod`;
* `size_t` hash values are `Nat`;
* a member function that can fail an `ir_assert` (or reach
  `ir_error_not_expected`) returns an `Option`, `none` being the failed
  assertion; the other member functions return their value directly;
* declarations the header only includes (`ngen.hpp`, `ir.hpp`, `utils.hpp`) are
  either parameters or small models, each marked as such.
-/

namespace dnnl.impl.gpu.jit

/-! ## Included declarations -/

namespace ngen

/-- Modelled from the spec: the hardware generation `ngen::HW` is declared in
`gpu/jit/ngen/ngen.hpp`, which is not among the sources. It is an ordered
enumeration ("an explicit ordered enum of hardware generations"); a generation
is identified here by the ordinal of its enumerator, so that `hw >= XeHPC` is
the comparison of ordinals. -/
abbrev HW := Nat

end ngen

/-- Modelled from the spec: what the descriptor reads from `ngen.hpp`, taken as
parameters: the ordinal of the enumerator `ngen::HW::XeHPC` and the table
`ngen::GRF::bytes(hw)` giving the register byte-width of a generation ("its
byte-width is hardware-generation-specific"). -/
structure ngen_t where
  XeHPC : ngen.HW
  GRF_bytes : ngen.HW → Int

/-- Modelled from the spec: the kind tag `type_kind_t` of an element type is
declared in `gpu/jit/conv/ir.hpp`, which is not among the sources. The
descriptor only tells `byte`, `oword` and `hword` apart from the rest; every
other enumerator is `other` with its ordinal. -/
inductive type_kind_t where
  | byte
  | oword
  | hword
  | other (ordinal : Nat)
deriving DecidableEq, Repr

/-- Modelled from the spec: the element type `type_t` is declared in
`gpu/jit/conv/ir.hpp`, which is not among the sources. The descriptor reads
three things of it, carried here as fields: `kind()`, the byte size `size()`,
and the byte size of its scalar `scalar().size()`. `operator==` is equality of
the value. -/
structure type_t where
  kind : type_kind_t
  size : Nat
  scalar_size : Nat
deriving DecidableEq, Repr

/-- The largest value of a 32-bit `int`. -/
def INT_MAX : Int := 2147483647

/-- The smallest value of a 32-bit `int`. -/
def INT_MIN : Int := -2147483648

/-- The value a 32-bit two's complement `int` takes for the mathematical
result `n`: `n` itself when it lies between `INT_MIN` and `INT_MAX`, and `n`
wrapped around by a multiple of `2^32` otherwise. -/
def int32 (n : Int) : Int := (n + 2147483648) % 4294967296 - 2147483648

/-- The `+` of two `int`. -/
def int_add (a b : Int) : Int := int32 (a + b)

/-- The `-` of two `int`. -/
def int_sub (a b : Int) : Int := int32 (a - b)

/-- The `*` of two `int`. -/
def int_mul (a b : Int) : Int := int32 (a * b)

/-- The `/` of two `int`, truncating. -/
def int_div (a b : Int) : Int := int32 (a.tdiv b)

namespace utils

/-- Modelled from the spec: `utils::div_up(a, b)` of `common/utils.hpp` (not
among the sources), the quotient rounded up, computed on `int` as
`(a + b - 1) / b` with the truncating division of C++. -/
def div_up (a b : Int) : Int := int_div (int_sub (int_add a b) 1) b

/-- Modelled from the spec: `utils::rnd_up(a, b)` of `common/utils.hpp` (not
among the sources), "rounded up to a register boundary": `div_up(a, b) * b`
on `int`. -/
def rnd_up (a b : Int) : Int := int_mul (div_up a b) b

end utils

/-- An `ir_assert(cond)`: continues when the condition holds and fails
otherwise. -/
def ir_assert (cond : Bool) : Option Unit := if cond then some () else none

/-- Modelled from the spec: `ir_utils::safe_divide(a, b)` of
`gpu/jit/conv/utils.hpp` (not among the sources): the exact quotient, asserting
that the divisor is non-zero and that it divides evenly. -/
def ir_utils.safe_divide (a b : Int) : Option Int := do
  ir_assert (b != 0 && a.tmod b == 0)
  pure (int_div a b)

/-- Modelled from the spec: the "equality/hash protocol for expression trees"
of the IR library and the pieces of `ir_utils::get_hash`, taken as parameters
over the expression type `expr_t`: `is_same` is `expr_t::is_same`, the `hash_*`
fields are the hash of one argument of the given type, and `hash_combine`
folds the hash of the next argument into the running hash. -/
structure ir_utils_t (expr_t : Type) where
  is_same : expr_t → expr_t → Bool
  hash_expr : expr_t → Nat
  hash_int : Int → Nat
  hash_bool : Bool → Nat
  hash_hw : ngen.HW → Nat
  hash_type : type_t → Nat
  hash_combine : Nat → Nat → Nat

/-- Modelled from the spec: the variadic `ir_utils::get_hash(args...)` of
`gpu/jit/conv/utils.hpp` (not among the sources), given the hashes of its
arguments in order: starting from 0, each one is combined into the running
hash. -/
def ir_utils_t.get_hash {expr_t : Type} (ir : ir_utils_t expr_t) (args : List Nat) : Nat :=
  args.foldl ir.hash_combine 0

/-! ## The descriptor -/

/-- Send operation kind. -/
inductive send_op_t where
  | atomic_fadd
  | load
  | load_2d
  | prefetch
  | store
  | store_2d
deriving DecidableEq, Repr

/-- Send address model. -/
inductive send_address_t where
  | a64
  | bts
  | slm
deriving DecidableEq, Repr

/-- Ordinal of an operation kind, the value `std::hash` sees. -/
def send_op_t.ordinal : send_op_t → Int
  | .atomic_fadd => 0
  | .load => 1
  | .load_2d => 2
  | .prefetch => 3
  | .store => 4
  | .store_2d => 5

/-- Ordinal of an address model, the value `std::hash` sees. -/
def send_address_t.ordinal : send_address_t → Int
  | .a64 => 0
  | .bts => 1
  | .slm => 2

/-- The 2D tile geometry `block_2d_info_t`, with its default member values. -/
structure block_2d_info_t (expr_t : Type) where
  surface_width : Int := 0
  surface_height : Int := 0
  surface_pitch : Int := 0
  x : expr_t
  y : expr_t
  width : Int := 0
  height : Int := 0
  count : Int := 0
  vnni : Bool := false
  transpose : Bool := false

/-- The descriptor `send_t`: its data members. -/
structure send_t (expr_t : Type) where
  hw : ngen.HW
  op : send_op_t
  address : send_address_t
  type : type_t
  slots : Int
  is_lsc : Bool
  block_2d_info : block_2d_info_t expr_t

section

variable {expr_t : Type}

namespace block_2d_info_t

def is_empty (i : block_2d_info_t expr_t) : Bool := i.surface_width == 0

/-- The `operator==` of the geometry. -/
def eq (ir : ir_utils_t expr_t) (i other : block_2d_info_t expr_t) : Bool :=
  if i.is_empty != other.is_empty then false
  else if i.is_empty then true
  else (i.surface_width == other.surface_width)
    && (i.surface_height == other.surface_height)
    && (i.surface_pitch == other.surface_pitch) && ir.is_same i.x other.x
    && ir.is_same i.y other.y && (i.width == other.width)
    && (i.height == other.height) && (i.count == other.count)
    && (i.vnni == other.vnni) && (i.transpose == other.transpose)

def get_hash (ir : ir_utils_t expr_t) (i : block_2d_info_t expr_t) : Nat :=
  if i.is_empty then 0
  else ir.get_hash [ir.hash_int i.surface_width, ir.hash_int i.surface_height,
    ir.hash_int i.surface_pitch, ir.hash_expr i.x, ir.hash_expr i.y,
    ir.hash_int i.width, ir.hash_int i.height, ir.hash_int i.count,
    ir.hash_bool i.vnni, ir.hash_bool i.transpose]

end block_2d_info_t

namespace send_t

/-- The private constructor of a non-2D descriptor, behind `send_t::make`. The
geometry keeps its default value, whose `x` and `y` are default expressions. -/
def make [Inhabited expr_t] (ng : ngen_t) (hw : ngen.HW) (op : send_op_t)
    (address : send_address_t) (type : type_t) (slots : Int) : send_t expr_t :=
  { hw := hw, op := op, address := address, type := type, slots := slots,
    is_lsc := decide (hw ≥ ng.XeHPC),
    block_2d_info := { x := default, y := default } }

def is_atomic (s : send_t expr_t) : Bool := s.op == send_op_t.atomic_fadd
def is_load (s : send_t expr_t) : Bool := s.op == send_op_t.load
def is_load_2d (s : send_t expr_t) : Bool := s.op == send_op_t.load_2d
def is_prefetch (s : send_t expr_t) : Bool := s.op == send_op_t.prefetch
def is_store (s : send_t expr_t) : Bool := s.op == send_op_t.store
def is_store_2d (s : send_t expr_t) : Bool := s.op == send_op_t.store_2d
def is_2d (s : send_t expr_t) : Bool := s.is_load_2d || s.is_store_2d
def is_a64 (s : send_t expr_t) : Bool := s.address == send_address_t.a64
def is_bts (s : send_t expr_t) : Bool := s.address == send_address_t.bts
def is_slm (s : send_t expr_t) : Bool := s.address == send_address_t.slm

def is_block (s : send_t expr_t) : Bool :=
  s.type.kind == type_kind_t.oword || s.type.kind == type_kind_t.hword

def is_scattered (s : send_t expr_t) : Bool := !s.is_block && !s.is_2d

def grf_size (ng : ngen_t) (s : send_t expr_t) : Int := ng.GRF_bytes s.hw

def is_xe_hpc_plus (ng : ngen_t) (s : send_t expr_t) : Bool := decide (s.hw ≥ ng.XeHPC)

/-- The 2D constructor, behind `send_t::make_2d`: the descriptor is built and
the assertions of the constructor body are then checked on it. -/
def make_2d (hw : ngen.HW) (op : send_op_t) (type : type_t)
    (surface_width surface_height surface_pitch : Int) (x y : expr_t)
    (width height count : Int) (vnni transpose : Bool) : Option (send_t expr_t) :=
  let info : block_2d_info_t expr_t :=
    { surface_width := surface_width, surface_height := surface_height,
      surface_pitch := surface_pitch, x := x, y := y, width := width,
      height := height, count := count, vnni := vnni, transpose := transpose }
  let s : send_t expr_t :=
    { hw := hw, op := op, address := send_address_t.a64, type := type,
      slots := 1, is_lsc := true, block_2d_info := info }
  do
    ir_assert (op == send_op_t.load_2d || op == send_op_t.store_2d)
    if s.is_store_2d then
      ir_assert (!info.vnni)
      ir_assert (!info.transpose)
    pure s

def is_equal (ir : ir_utils_t expr_t) (s other : send_t expr_t) : Bool :=
  (s.hw == other.hw) && (s.op == other.op)
    && (s.address == other.address) && (s.type == other.type)
    && (s.slots == other.slots) && (s.is_lsc == other.is_lsc)
    && (block_2d_info_t.eq ir s.block_2d_info other.block_2d_info)

/-- The hash of the descriptor. The geometry argument is hashed through its own
`get_hash` member, as `ir_utils::get_hash` does for an object that has one. -/
def get_hash (ir : ir_utils_t expr_t) (s : send_t expr_t) : Nat :=
  ir.get_hash [ir.hash_hw s.hw, ir.hash_int s.op.ordinal,
    ir.hash_int s.address.ordinal, ir.hash_type s.type, ir.hash_int s.slots,
    ir.hash_bool s.is_lsc, s.block_2d_info.get_hash ir]

/-- Size of memory (global memory or SLM) to access. -/
def access_size (s : send_t expr_t) : Int :=
  if s.is_2d then
    int_mul (int_mul (int_mul s.type.size s.block_2d_info.width) s.block_2d_info.height)
      s.block_2d_info.count
  else int_mul s.type.size s.slots

def payload_type_stride (s : send_t expr_t) : Option Int := do
  ir_assert (!s.is_2d)
  if s.type.kind == type_kind_t.byte then pure 4
  else pure s.type.size

/-- Full size of payload GRF buffer for this message. -/
def payload_size (ng : ngen_t) (s : send_t expr_t) : Option Int :=
  if s.is_2d then pure (utils.rnd_up s.access_size (s.grf_size ng))
  else do
    let sz := int_mul (← s.payload_type_stride) s.slots
    pure (utils.rnd_up sz (s.grf_size ng))

def alignment (s : send_t expr_t) : Int :=
  if s.is_2d then 128
  else if s.is_block then s.type.scalar_size
  else 1

def mask_size (ng : ngen_t) (s : send_t expr_t) : Option Int :=
  if s.is_2d then pure s.access_size
  else if s.is_block then
    if s.is_xe_hpc_plus ng then pure s.type.size
    else pure 4
  else if s.is_scattered then pure s.type.size
  else none

def nmasks (ng : ngen_t) (s : send_t expr_t) : Option Int :=
  if s.is_2d then pure 1
  else do
    let masks ← ir_utils.safe_divide (int_mul s.type.size s.slots) (← s.mask_size ng)
    if masks > 16 then
      ir_assert s.is_block
      ir_assert (masks.tmod 16 == 0)
      pure 16
    else pure masks

def address_size (s : send_t expr_t) : Int := if s.is_a64 then 8 else 4

/-- Size of header in bytes. -/
def header_size (ng : ngen_t) (s : send_t expr_t) : Int :=
  if s.is_2d then s.grf_size ng
  else utils.rnd_up (int_mul s.address_size s.slots) (s.grf_size ng)

end send_t

end

/-- The send hint `send_hint_t`, with its default member values. -/
structure send_hint_t where
  enable_2d : Bool := false
  enable_2d_vnni : Bool := false
  enable_2d_transpose : Bool := false
deriving DecidableEq, Repr

def send_hint_t.convert (h : send_hint_t) (op : send_op_t) : send_op_t :=
  if h.enable_2d then
    if op == send_op_t.load then send_op_t.load_2d
    else if op == send_op_t.store then send_op_t.store_2d
    else op
  else op

/-! ## Concrete instances used to exercise the definitions -/

/-- A hardware table for the examples: `XeHPC` has ordinal 7, registers are 64
bytes wide from `XeHPC` on and 32 bytes wide before. -/
def example_ngen : ngen_t :=
  { XeHPC := 7, GRF_bytes := fun hw => if hw ≥ 7 then 64 else 32 }

/-- A block descriptor of the examples: 8 slots of a 16-byte `oword` on a
generation before `XeHPC`, expressions being natural numbers. -/
def example_block : send_t Nat :=
  { hw := 5, op := send_op_t.load, address := send_address_t.a64,
    type := { kind := type_kind_t.oword, size := 16, scalar_size := 16 },
    slots := 8, is_lsc := false, block_2d_info := { x := 0, y := 0 } }

/-- A 2D load of the examples: a tile of 32 by 8 elements of 4 bytes on a
surface 256 bytes wide, with the reinterleave flag set. -/
def example_2d : send_t Nat :=
  { hw := 7, op := send_op_t.load_2d, address := send_address_t.a64,
    type := { kind := type_kind_t.other 13, size := 4, scalar_size := 4 },
    slots := 1, is_lsc := true,
    block_2d_info :=
      { surface_width := 256, surface_height := 64, surface_pitch := 256,
        x := 0, y := 0, width := 32, height := 8, count := 1, vnni := true } }

/-- A scattered descriptor of the examples: 16 slots of a one-byte scalar that
is not of kind `byte`, global addressing. -/
def example_scalar_byte : send_t Nat :=
  { hw := 5, op := send_op_t.load, address := send_address_t.a64,
    type := { kind := type_kind_t.other 2, size := 1, scalar_size := 1 },
    slots := 16, is_lsc := false, block_2d_info := { x := 0, y := 0 } }

/-- A scattered descriptor of the examples: 16 slots of two elements of kind
`byte`, global addressing. -/
def example_byte_pair : send_t Nat :=
  { hw := 5, op := send_op_t.load, address := send_address_t.a64,
    type := { kind := type_kind_t.byte, size := 2, scalar_size := 1 },
    slots := 16, is_lsc := false, block_2d_info := { x := 0, y := 0 } }

/-- A scattered descriptor of the examples: 8 slots of a 4-byte scalar, global
addressing. -/
def example_scattered : send_t Nat :=
  { hw := 5, op := send_op_t.load, address := send_address_t.a64,
    type := { kind := type_kind_t.other 13, size := 4, scalar_size := 4 },
    slots := 8, is_lsc := false, block_2d_info := { x := 0, y := 0 } }

/-- An equality/hash protocol for the examples: expressions are natural
numbers, the same when equal, and hashes are sums. -/
def example_ir : ir_utils_t Nat :=
  { is_same := fun a b => a == b, hash_expr := fun e => e, hash_int := Int.natAbs,
    hash_bool := fun b => if b then 1 else 0, hash_hw := fun hw => hw,
    hash_type := fun t => t.size, hash_combine := fun h a => 31 * h + a }

/-- A scattered descriptor of the examples with a slot count so large that the
payload byte count leaves the range of `int`: 2^29 slots of a 4-byte scalar,
global addressing. -/
def example_wide_payload : send_t Nat :=
  { hw := 5, op := send_op_t.load, address := send_address_t.a64,
    type := { kind := type_kind_t.other 7, size := 4, scalar_size := 4 },
    slots := 536870912, is_lsc := false, block_2d_info := { x := 0, y := 0 } }

/-- A scattered descriptor of the examples whose access size still fits an
`int` while its round-up does not: 2^29 - 1 slots of a 4-byte scalar, global
addressing. -/
def example_wide_access : send_t Nat :=
  { hw := 5, op := send_op_t.load, address := send_address_t.a64,
    type := { kind := type_kind_t.other 7, size := 4, scalar_size := 4 },
    slots := 536870911, is_lsc := false, block_2d_info := { x := 0, y := 0 } }

/-- A scattered descriptor of the examples with a slot count so large that the
header byte count leaves the range of `int`: 2^28 slots, global addressing. -/
def example_wide_header : send_t Nat :=
  { hw := 5, op := send_op_t.load, address := send_address_t.a64,
    type := { kind := type_kind_t.other 7, size := 4, scalar_size := 4 },
    slots := 268435456, is_lsc := false, block_2d_info := { x := 0, y := 0 } }

/-- A descriptor of the examples with a 2D operation given 8 slots through the
non-2D constructor: 4-byte elements, global addressing, 32-byte registers. -/
def example_2d_slots : send_t Nat :=
  { hw := 5, op := send_op_t.load_2d, address := send_address_t.a64,
    type := { kind := type_kind_t.other 13, size := 4, scalar_size := 4 },
    slots := 8, is_lsc := false, block_2d_info := { x := 0, y := 0 } }

/-- A 2D load of the examples whose tile byte count leaves the range of `int`:
a tile of 65536 by 65536 elements of 4 bytes. -/
def example_wide_tile : send_t Nat :=
  { hw := 7, op := send_op_t.load_2d, address := send_address_t.a64,
    type := { kind := type_kind_t.other 13, size := 4, scalar_size := 4 },
    slots := 1, is_lsc := true,
    block_2d_info :=
      { surface_width := 262144, surface_height := 65536, surface_pitch := 262144,
        x := 0, y := 0, width := 65536, height := 65536, count := 1 } }

/-! ## Arithmetic of 32-bit `int` -/

theorem int32_eq_self (n : Int) (h₁ : INT_MIN ≤ n) (h₂ : n ≤ INT_MAX) : int32 n = n := by
  unfold INT_MIN at h₁
  unfold INT_MAX at h₂
  unfold int32
  omega

theorem int32_range (n : Int) : INT_MIN ≤ int32 n ∧ int32 n ≤ INT_MAX := by
  unfold INT_MIN INT_MAX int32
  omega

theorem int32_sub_mul (y m : Int) : int32 (y - 4294967296 * m) = int32 y := by
  unfold int32
  omega

theorem int32_mul_int32 (a b : Int) : int32 (int32 a * b) = int32 (a * b) := by
  obtain ⟨k, hk⟩ : ∃ k : Int, int32 a = a - 4294967296 * k :=
    ⟨(a + 2147483648) / 4294967296, by unfold int32; omega⟩
  have h : (a - 4294967296 * k) * b = a * b - 4294967296 * (k * b) := by ring
  rw [hk, h, int32_sub_mul]

theorem int_mul_eq (a b : Int) (h₁ : INT_MIN ≤ a * b) (h₂ : a * b ≤ INT_MAX) :
    int_mul a b = a * b :=
  int32_eq_self _ h₁ h₂

/-! ## Arithmetic of the rounding helper -/

theorem utils.rnd_up_eq (a b : Int) (ha : 0 ≤ a) (hb : 0 < b) (hfit : a + b - 1 ≤ INT_MAX) :
    utils.rnd_up a b = (a + b - 1) / b * b := by
  have hmin : INT_MIN ≤ 0 := by decide
  have h1 : int_sub (int_add a b) 1 = a + b - 1 := by
    have h2 : int_sub (int_add a b) 1 = int32 (a + b - 1) := by
      unfold int_sub int_add int32
      omega
    rw [h2]
    exact int32_eq_self _ (by unfold INT_MIN; omega) hfit
  have hq0 : 0 ≤ (a + b - 1) / b := Int.ediv_nonneg (by omega) (by omega)
  have hq1 : (a + b - 1) / b * b ≤ a + b - 1 := Int.ediv_mul_le _ (by omega)
  have hq2 : (a + b - 1) / b ≤ (a + b - 1) / b * b := by nlinarith
  have h3 : utils.div_up a b = (a + b - 1) / b := by
    unfold utils.div_up int_div
    rw [h1, Int.tdiv_eq_ediv (by omega) (by omega)]
    exact int32_eq_self _ (le_trans hmin hq0) (by omega)
  unfold utils.rnd_up
  rw [h3]
  exact int_mul_eq _ _ (le_trans hmin (Int.mul_nonneg hq0 (by omega))) (by omega)

theorem utils.rnd_up_dvd (a b : Int) (ha : 0 ≤ a) (hb : 0 < b) (hfit : a + b - 1 ≤ INT_MAX) :
    b ∣ utils.rnd_up a b := by
  rw [utils.rnd_up_eq a b ha hb hfit]
  exact Dvd.intro_left _ rfl

theorem utils.le_rnd_up (a b : Int) (ha : 0 ≤ a) (hb : 0 < b) (hfit : a + b - 1 ≤ INT_MAX) :
    a ≤ utils.rnd_up a b := by
  rw [utils.rnd_up_eq a b ha hb hfit]
  have h := Int.lt_ediv_add_one_mul_self (a + b - 1) hb
  linarith

theorem utils.rnd_up_le_of_dvd (a b q : Int) (ha : 0 ≤ a) (hb : 0 < b)
    (hfit : a + b - 1 ≤ INT_MAX) (hq : b ∣ q) (haq : a ≤ q) : utils.rnd_up a b ≤ q := by
  rw [utils.rnd_up_eq a b ha hb hfit]
  obtain ⟨c, rfl⟩ := hq
  have h1 : (a + b - 1) / b * b ≤ a + b - 1 := Int.ediv_mul_le _ (by omega)
  have h2 : (a + b - 1) / b < c + 1 := by
    by_contra hcon
    have h3 : c + 1 ≤ (a + b - 1) / b := by omega
    have h4 : (c + 1) * b ≤ (a + b - 1) / b * b := Int.mul_le_mul_of_nonneg_right h3 (by omega)
    nlinarith
  have h5 : (a + b - 1) / b ≤ c := by omega
  calc (a + b - 1) / b * b ≤ c * b := Int.mul_le_mul_of_nonneg_right h5 (by omega)
    _ = b * c := Int.mul_comm c b

/-! ## Masks -/

section

variable {expr_t : Type}

/-- C1: on every descriptor on which `nmasks()` returns a value instead of
failing an assertion, the returned value is at most 16. -/
theorem nmasks_le_16 (ng : ngen_t) (s : send_t expr_t) (m : Int)
    (h : s.nmasks ng = some m) : m ≤ 16 := by
  unfold send_t.nmasks at h
  split at h
  · simp at h; omega
  · cases hms : s.mask_size ng with
    | none => simp [hms] at h
    | some ms =>
      cases hsd : ir_utils.safe_divide (int_mul ↑s.type.size s.slots) ms with
      | none => simp [hms, hsd] at h
      | some masks =>
        simp only [hms, hsd, Option.bind_eq_bind, Option.some_bind, Option.pure_def] at h
        split at h
        · cases hb : ir_assert s.is_block with
          | none => simp [hb] at h
          | some u =>
            cases hd : ir_assert (masks.tmod 16 == 0) with
            | none => simp [hb, hd] at h
            | some v => simp [hb, hd] at h; omega
        · simp at h; omega

/-- The block descriptor of the examples needs 32 masks, a multiple of 16, and
gets 16 of them, which is within the bound. -/
theorem nmasks_le_16_witness : (16 : Int) ≤ 16 :=
  nmasks_le_16 example_ngen example_block 16 (by decide)

/-- C2: on a non-2D descriptor whose raw mask count (the exact quotient of
`type.size() * slots`, as the `int` the code computes, by `mask_size()`) is
greater than 16, `nmasks()` returns
exactly 16 when the descriptor is a block message and the raw count is a
multiple of 16, and fails an assertion in every other case; when the quotient
is not exact `nmasks()` fails as well, so no truncated count is returned. -/
theorem nmasks_round_robin (ng : ngen_t) (s : send_t expr_t) (h2d : s.is_2d = false) :
    (∀ raw : Int,
      (s.mask_size ng).bind (ir_utils.safe_divide (int_mul s.type.size s.slots)) = some raw →
      16 < raw →
      s.nmasks ng = if s.is_block = true ∧ raw.tmod 16 = 0 then some 16 else none) ∧
    ((s.mask_size ng).bind (ir_utils.safe_divide (int_mul s.type.size s.slots)) = none →
      s.nmasks ng = none) := by
  unfold send_t.nmasks
  cases hms : s.mask_size ng with
  | none => simp [h2d]
  | some ms =>
    simp only [Option.some_bind]
    constructor
    · intro raw hraw hgt
      simp only [h2d, hraw, Bool.false_eq_true, if_false, Option.bind_eq_bind, Option.some_bind,
        Option.pure_def, gt_iff_lt, hgt, if_true]
      cases hb : s.is_block <;> by_cases hd : raw.tmod 16 = 0 <;> simp [ir_assert, hd]
    · intro hraw
      simp [h2d, hraw]

/-- The block descriptor of the examples has raw mask count 32 and gets 16
masks. -/
theorem nmasks_round_robin_witness :
    example_block.nmasks example_ngen
      = if example_block.is_block = true ∧ (32 : Int).tmod 16 = 0 then some 16 else none :=
  (nmasks_round_robin example_ngen example_block (by decide)).1 32 (by decide) (by decide)

/-! ## Payload -/

/-- C3, as stated, fails when the byte count leaves the range of `int`: with
2^29 slots of a 4-byte scalar (non-2D, 32-byte registers) the stride is 4 and
`payload_size()` returns -2147483616, which is smaller than
`payload_type_stride() * slots`. -/
theorem payload_size_least_multiple_counterexample :
    example_wide_payload.is_2d = false ∧ 1 ≤ example_wide_payload.slots ∧
    0 < example_wide_payload.grf_size example_ngen ∧
    example_wide_payload.payload_type_stride = some 4 ∧
    example_wide_payload.payload_size example_ngen = some (-2147483616) ∧
    ¬ ((4 : Int) * example_wide_payload.slots ≤ -2147483616) := by
  decide

/-- C3, amended: on a non-2D descriptor with at least one slot, on hardware
whose register byte-width is positive, and when
`payload_type_stride() * slots + grf_size() - 1` does not exceed `INT_MAX`,
`payload_size()` returns a multiple of `grf_size()`, and precisely the least
multiple of `grf_size()` that is not smaller than
`payload_type_stride() * slots`. -/
theorem payload_size_least_multiple (ng : ngen_t) (s : send_t expr_t)
    (h2d : s.is_2d = false) (hslots : 1 ≤ s.slots) (hgrf : 0 < s.grf_size ng)
    (hfit : ∀ stride : Int, s.payload_type_stride = some stride →
      stride * s.slots + s.grf_size ng - 1 ≤ INT_MAX) :
    ∃ stride p : Int, s.payload_type_stride = some stride ∧ s.payload_size ng = some p ∧
      s.grf_size ng ∣ p ∧ stride * s.slots ≤ p ∧
      ∀ q : Int, s.grf_size ng ∣ q → stride * s.slots ≤ q → p ≤ q := by
  have key : ∀ stride : Int, 0 ≤ stride → s.payload_type_stride = some stride →
      ∃ stride p : Int, s.payload_type_stride = some stride ∧ s.payload_size ng = some p ∧
        s.grf_size ng ∣ p ∧ stride * s.slots ≤ p ∧
        ∀ q : Int, s.grf_size ng ∣ q → stride * s.slots ≤ q → p ≤ q := by
    intro stride hst hstride
    have hnn : 0 ≤ stride * s.slots := Int.mul_nonneg hst (by omega)
    have hf := hfit stride hstride
    have hmul : int_mul stride s.slots = stride * s.slots :=
      int_mul_eq _ _ (le_trans (by decide) hnn) (by omega)
    refine ⟨stride, utils.rnd_up (stride * s.slots) (s.grf_size ng), hstride, ?_,
      utils.rnd_up_dvd _ _ hnn hgrf hf, utils.le_rnd_up _ _ hnn hgrf hf,
      fun q hq hle => utils.rnd_up_le_of_dvd _ _ q hnn hgrf hf hq hle⟩
    simp [send_t.payload_size, h2d, hstride, hmul]
  by_cases hk : s.type.kind = type_kind_t.byte
  · exact key 4 (by omega) (by simp [send_t.payload_type_stride, ir_assert, h2d, hk])
  · exact key s.type.size (by omega) (by simp [send_t.payload_type_stride, ir_assert, h2d, hk])

/-- The block descriptor of the examples (8 slots of 16 bytes, 32-byte
registers) has a payload that is the least multiple of 32 not below 128. -/
theorem payload_size_least_multiple_witness :
    ∃ stride p : Int, example_block.payload_type_stride = some stride ∧
      example_block.payload_size example_ngen = some p ∧
      example_block.grf_size example_ngen ∣ p ∧ stride * example_block.slots ≤ p ∧
      ∀ q : Int, example_block.grf_size example_ngen ∣ q →
        stride * example_block.slots ≤ q → p ≤ q :=
  payload_size_least_multiple example_ngen example_block (by decide) (by decide) (by decide)
    (by
      intro stride h
      have h16 : example_block.payload_type_stride = some 16 := by decide
      rw [h16] at h
      cases h
      decide)

/-! ## 2D descriptors -/

/-- C4: on every 2D descriptor (operation `load_2d` or `store_2d`), whatever
its other members, `alignment()` returns 128 and `nmasks()` returns 1 without
failing. -/
theorem alignment_nmasks_2d (ng : ngen_t) (s : send_t expr_t)
    (hop : s.op = send_op_t.load_2d ∨ s.op = send_op_t.store_2d) :
    s.alignment = 128 ∧ s.nmasks ng = some 1 := by
  have h2d : s.is_2d = true := by
    rcases hop with h | h <;> simp [send_t.is_2d, send_t.is_load_2d, send_t.is_store_2d, h]
  simp [send_t.alignment, send_t.nmasks, h2d]

/-- The 2D load of the examples is aligned to 128 bytes and has one mask. -/
theorem alignment_nmasks_2d_witness :
    example_2d.alignment = 128 ∧ example_2d.nmasks example_ngen = some 1 :=
  alignment_nmasks_2d example_ngen example_2d (Or.inl rfl)

/-- C5: `send_t::make_2d` succeeds if and only if the operation is `load_2d`
or `store_2d` and, when it is `store_2d`, both `vnni` and `transpose` are
false. A constructed descriptor carries the operation and the two flags it was
given (no flag is cleared), so a constructed `store_2d` descriptor has both
flags false, and a `store_2d` request with `vnni` or `transpose` set fails. -/
theorem make_2d_succeeds_iff (hw : ngen.HW) (op : send_op_t) (type : type_t)
    (surface_width surface_height surface_pitch : Int) (x y : expr_t)
    (width height count : Int) (vnni transpose : Bool) :
    ((send_t.make_2d hw op type surface_width surface_height surface_pitch x y
        width height count vnni transpose).isSome = true ↔
      (op = send_op_t.load_2d ∨ op = send_op_t.store_2d) ∧
        (op = send_op_t.store_2d → vnni = false ∧ transpose = false)) ∧
    (∀ s : send_t expr_t,
      send_t.make_2d hw op type surface_width surface_height surface_pitch x y
        width height count vnni transpose = some s →
      s.op = op ∧ s.block_2d_info.vnni = vnni ∧ s.block_2d_info.transpose = transpose ∧
        (s.op = send_op_t.store_2d →
          s.block_2d_info.vnni = false ∧ s.block_2d_info.transpose = false)) ∧
    (op = send_op_t.store_2d → vnni = true ∨ transpose = true →
      send_t.make_2d hw op type surface_width surface_height surface_pitch x y
        width height count vnni transpose = none) := by
  cases op <;> cases vnni <;> cases transpose <;>
    simp [send_t.make_2d, ir_assert, send_t.is_store_2d]

/-! ## Send hint -/

/-- C6: with `enable_2d` set, `convert` maps `load` to `load_2d`, `store` to
`store_2d` and every other operation to itself; with `enable_2d` not set it
maps every operation to itself; the result does not depend on
`enable_2d_vnni` or `enable_2d_transpose`. -/
theorem convert_spec (h : send_hint_t) (op : send_op_t) :
    (h.enable_2d = true →
      h.convert send_op_t.load = send_op_t.load_2d ∧
      h.convert send_op_t.store = send_op_t.store_2d ∧
      h.convert send_op_t.atomic_fadd = send_op_t.atomic_fadd ∧
      h.convert send_op_t.prefetch = send_op_t.prefetch ∧
      h.convert send_op_t.load_2d = send_op_t.load_2d ∧
      h.convert send_op_t.store_2d = send_op_t.store_2d) ∧
    (h.enable_2d = false → h.convert op = op) ∧
    (∀ vnni transpose : Bool,
      send_hint_t.convert
        { enable_2d := h.enable_2d, enable_2d_vnni := vnni, enable_2d_transpose := transpose } op
        = h.convert op) := by
  refine ⟨?_, ?_, ?_⟩
  · intro he
    simp [send_hint_t.convert, he]
  · intro he
    simp [send_hint_t.convert, he]
  · intro vnni transpose
    simp [send_hint_t.convert]

/-! ## Payload stride -/

/-- C7, as stated, fails: the stride is decided by the kind of the element
type, not by its size. A one-byte scalar that is not of kind `byte` (16 slots,
global addressing, non-2D) has `payload_type_stride()` 1, not 4; and a type of
kind `byte` that is 2 bytes in size has `payload_type_stride()` 4, not its
size. -/
theorem payload_type_stride_by_size_counterexample :
    (example_scalar_byte.is_2d = false ∧ example_scalar_byte.type.size = 1 ∧
      example_scalar_byte.slots = 16 ∧ example_scalar_byte.address = send_address_t.a64 ∧
      example_scalar_byte.payload_type_stride = some 1) ∧
    (example_byte_pair.is_2d = false ∧ example_byte_pair.type.size = 2 ∧
      example_byte_pair.payload_type_stride = some 4) ∧
    ¬ (∀ s : send_t Nat, s.is_2d = false →
        s.payload_type_stride = some (if s.type.size = 1 then 4 else (s.type.size : Int))) := by
  refine ⟨by decide, by decide, ?_⟩
  intro h
  have h1 := h example_scalar_byte (by decide)
  revert h1
  decide

/-- C7, amended: on a non-2D descriptor whose element type is of kind `byte`,
whatever its size, slots and addressing mode, `payload_type_stride()` returns
4 (so 4 and not 1 for a single byte); on every other non-2D descriptor it
returns the size of the element type. -/
theorem payload_type_stride_by_kind (s : send_t expr_t) (h2d : s.is_2d = false) :
    (s.type.kind = type_kind_t.byte → s.payload_type_stride = some 4) ∧
    (s.type.kind ≠ type_kind_t.byte → s.payload_type_stride = some (s.type.size : Int)) := by
  constructor
  · intro hk
    simp [send_t.payload_type_stride, ir_assert, h2d, hk]
  · intro hk
    simp [send_t.payload_type_stride, ir_assert, h2d, hk]

/-- Two elements of kind `byte`, 2 bytes together, still have stride 4. -/
theorem payload_type_stride_by_kind_witness :
    example_byte_pair.payload_type_stride = some 4 :=
  (payload_type_stride_by_kind example_byte_pair (by decide)).1 (by decide)

/-! ## Header -/

theorem send_t.address_size_pos (s : send_t expr_t) : 4 ≤ s.address_size := by
  unfold send_t.address_size
  split <;> omega

/-- C8, as stated, fails in two places. With 2^28 slots and `a64` addressing
(non-2D, 32-byte registers) the byte count `8 * slots` leaves the range of
`int` and `header_size()` returns -2147483616, which is not positive. And a
descriptor with a 2D operation, a 4-byte element type, 8 slots and `a64`
addressing has `header_size()` 32, not the round-up of 64 (which is 64), and
its `payload_type_stride()` fails the assertion. -/
theorem header_size_grf_multiple_counterexample :
    (1 ≤ example_wide_header.slots ∧ 0 < example_wide_header.grf_size example_ngen ∧
      example_wide_header.is_2d = false ∧
      example_wide_header.header_size example_ngen = -2147483616 ∧
      ¬ (0 < example_wide_header.header_size example_ngen)) ∧
    (example_2d_slots.type.size = 4 ∧ example_2d_slots.slots = 8 ∧
      example_2d_slots.address = send_address_t.a64 ∧
      example_2d_slots.header_size example_ngen = 32 ∧
      utils.rnd_up 64 (example_2d_slots.grf_size example_ngen) = 64 ∧
      example_2d_slots.payload_type_stride = none) := by
  decide

/-- C8, amended: on a descriptor with at least one slot, on hardware whose
register byte-width is positive, and when for a non-2D descriptor
`address_size() * slots + grf_size() - 1` does not exceed `INT_MAX`,
`header_size()` is a positive multiple of `grf_size()`: exactly `grf_size()`
for a 2D descriptor, and for a non-2D descriptor the least multiple of
`grf_size()` not smaller than `address_size() * slots`, where `address_size()`
is 8 for `a64` and 4 for `bts` and `slm`. In particular a non-2D descriptor
with a 4-byte element type, 8 slots and `a64` addressing has `address_size()`
8, `header_size()` the round-up of 64 to `grf_size()`, and
`payload_type_stride()` 4. -/
theorem header_size_grf_multiple (ng : ngen_t) (s : send_t expr_t)
    (hslots : 1 ≤ s.slots) (hgrf : 0 < s.grf_size ng)
    (hfit : s.is_2d = false → s.address_size * s.slots + s.grf_size ng - 1 ≤ INT_MAX) :
    0 < s.header_size ng ∧ s.grf_size ng ∣ s.header_size ng ∧
    (s.is_2d = true → s.header_size ng = s.grf_size ng) ∧
    (s.is_2d = false →
      s.address_size * s.slots ≤ s.header_size ng ∧
      ∀ q : Int, s.grf_size ng ∣ q → s.address_size * s.slots ≤ q → s.header_size ng ≤ q) ∧
    (s.address = send_address_t.a64 → s.address_size = 8) ∧
    (s.address = send_address_t.bts ∨ s.address = send_address_t.slm → s.address_size = 4) ∧
    (s.is_2d = false → s.type.size = 4 → s.slots = 8 → s.address = send_address_t.a64 →
      s.address_size = 8 ∧ s.header_size ng = utils.rnd_up 64 (s.grf_size ng) ∧
      s.payload_type_stride = some 4) := by
  have hadr := send_t.address_size_pos s
  have hnn : 0 ≤ s.address_size * s.slots := Int.mul_nonneg (by omega) (by omega)
  have hpos : 0 < s.address_size * s.slots := Int.mul_pos (by omega) (by omega)
  have hhdr : s.is_2d = false →
      s.header_size ng = utils.rnd_up (s.address_size * s.slots) (s.grf_size ng) := by
    intro h2d
    have hf := hfit h2d
    have hmul : int_mul s.address_size s.slots = s.address_size * s.slots :=
      int_mul_eq _ _ (le_trans (by decide) hnn) (by omega)
    simp [send_t.header_size, h2d, hmul]
  refine ⟨?_, ?_, ?_, ?_, ?_, ?_, ?_⟩
  · cases h2d : s.is_2d
    · have := utils.le_rnd_up _ _ hnn hgrf (hfit h2d)
      rw [hhdr h2d]
      omega
    · simpa [send_t.header_size, h2d] using hgrf
  · cases h2d : s.is_2d
    · rw [hhdr h2d]
      exact utils.rnd_up_dvd _ _ hnn hgrf (hfit h2d)
    · simp [send_t.header_size, h2d]
  · intro h2d
    simp [send_t.header_size, h2d]
  · intro h2d
    rw [hhdr h2d]
    exact ⟨utils.le_rnd_up _ _ hnn hgrf (hfit h2d),
      fun q hq hle => utils.rnd_up_le_of_dvd _ _ q hnn hgrf (hfit h2d) hq hle⟩
  · intro ha
    simp [send_t.address_size, send_t.is_a64, ha]
  · intro ha
    rcases ha with ha | ha <;> simp [send_t.address_size, send_t.is_a64, ha]
  · intro h2d hsz hsl ha
    have hadr8 : s.address_size = 8 := by simp [send_t.address_size, send_t.is_a64, ha]
    refine ⟨hadr8, ?_, ?_⟩
    · have h64 : int_mul 8 8 = 64 := by decide
      simp [send_t.header_size, h2d, hadr8, hsl, h64]
    · by_cases hk : s.type.kind = type_kind_t.byte
      · simp [send_t.payload_type_stride, ir_assert, h2d, hk]
      · simp [send_t.payload_type_stride, ir_assert, h2d, hk, hsz]

/-- The scattered descriptor of the examples (4-byte elements, 8 slots, `a64`,
32-byte registers) has a header of 64 bytes, two registers. -/
theorem header_size_grf_multiple_witness :
    example_scattered.header_size example_ngen = 64 ∧
    example_scattered.address_size = 8 ∧
    example_scattered.payload_type_stride = some 4 := by
  have h := header_size_grf_multiple example_ngen example_scattered (by decide) (by decide)
    (by decide)
  have h7 := h.2.2.2.2.2.2 (by decide) (by decide) (by decide) (by decide)
  exact ⟨by rw [h7.2.1]; decide, h7.1, h7.2.2⟩

/-! ## Equality and hashing -/

theorem block_2d_info_t.get_hash_of_is_empty (ir : ir_utils_t expr_t)
    (g : block_2d_info_t expr_t) (hg : g.surface_width = 0) : g.get_hash ir = 0 := by
  simp [block_2d_info_t.get_hash, block_2d_info_t.is_empty, hg]

theorem block_2d_info_t.eq_of_is_empty (ir : ir_utils_t expr_t)
    (g h : block_2d_info_t expr_t) (hg : g.surface_width = 0) (hh : h.surface_width = 0) :
    g.eq ir h = true := by
  simp [block_2d_info_t.eq, block_2d_info_t.is_empty, hg, hh]

theorem block_2d_info_t.get_hash_congr (ir : ir_utils_t expr_t)
    (hsame : ∀ e₁ e₂ : expr_t, ir.is_same e₁ e₂ = true → ir.hash_expr e₁ = ir.hash_expr e₂)
    (g h : block_2d_info_t expr_t) (heq : g.eq ir h = true) :
    g.get_hash ir = h.get_hash ir := by
  unfold block_2d_info_t.eq at heq
  unfold block_2d_info_t.get_hash
  cases hg : g.is_empty <;> cases hh : h.is_empty <;> simp [hg, hh] at heq ⊢
  obtain ⟨⟨⟨⟨⟨⟨⟨⟨⟨h1, h2⟩, h3⟩, h4⟩, h5⟩, h6⟩, h7⟩, h8⟩, h9⟩, h10⟩ := heq
  rw [h1, h2, h3, hsame _ _ h4, hsame _ _ h5, h6, h7, h8, h9, h10]

/-- C9: hashing is consistent with equality, when expressions that are
`is_same` have equal hashes: two descriptors that are `is_equal` have the same
`get_hash()`, two geometries that are `==` have the same `get_hash()`, and two
empty geometries (`surface_width` 0) are `==` and both hash to 0 whatever
their other fields. -/
theorem get_hash_consistent (ir : ir_utils_t expr_t)
    (hsame : ∀ e₁ e₂ : expr_t, ir.is_same e₁ e₂ = true → ir.hash_expr e₁ = ir.hash_expr e₂) :
    (∀ a b : send_t expr_t, a.is_equal ir b = true → a.get_hash ir = b.get_hash ir) ∧
    (∀ g h : block_2d_info_t expr_t, g.eq ir h = true → g.get_hash ir = h.get_hash ir) ∧
    (∀ g h : block_2d_info_t expr_t, g.surface_width = 0 → h.surface_width = 0 →
      g.eq ir h = true ∧ g.get_hash ir = 0 ∧ h.get_hash ir = 0) := by
  refine ⟨?_, block_2d_info_t.get_hash_congr ir hsame, ?_⟩
  · intro a b hab
    simp only [send_t.is_equal, Bool.and_eq_true, beq_iff_eq] at hab
    obtain ⟨⟨⟨⟨⟨⟨h1, h2⟩, h3⟩, h4⟩, h5⟩, h6⟩, h7⟩ := hab
    simp only [send_t.get_hash]
    rw [h1, h2, h3, h4, h5, h6, block_2d_info_t.get_hash_congr ir hsame _ _ h7]
  · intro g h hg hh
    exact ⟨block_2d_info_t.eq_of_is_empty ir g h hg hh,
      block_2d_info_t.get_hash_of_is_empty ir g hg,
      block_2d_info_t.get_hash_of_is_empty ir h hh⟩

/-- Two 2D loads that differ only in the tile width of an empty geometry are
`is_equal` and hash alike under the protocol of the examples. -/
theorem get_hash_consistent_witness :
    send_t.is_equal example_ir
        { example_2d with block_2d_info := { x := 0, y := 0, width := 32 } }
        { example_2d with block_2d_info := { x := 1, y := 0, width := 16 } } = true ∧
      send_t.get_hash example_ir
          { example_2d with block_2d_info := { x := 0, y := 0, width := 32 } }
        = send_t.get_hash example_ir
          { example_2d with block_2d_info := { x := 1, y := 0, width := 16 } } :=
  ⟨by decide,
    (get_hash_consistent example_ir (by intro e₁ e₂ h; simpa [example_ir] using h)).1 _ _
      (by decide)⟩

/-! ## Access size -/

/-- C10, as stated, fails when the byte count leaves the range of `int`: a 2D
load of a tile of 65536 by 65536 elements of 4 bytes, count 1, has
`access_size()` 0, while `type.size() * width * height * count` is
17179869184. -/
theorem access_size_spec_counterexample :
    example_wide_tile.op = send_op_t.load_2d ∧
    example_wide_tile.access_size = 0 ∧
    (example_wide_tile.type.size : Int) * example_wide_tile.block_2d_info.width
        * example_wide_tile.block_2d_info.height * example_wide_tile.block_2d_info.count
      = 17179869184 := by
  decide

/-- C10, amended: `access_size()` is `type.size() * width * height * count` of
the tile geometry when the operation is `load_2d` or `store_2d`, whatever the
slots and the `vnni` and `transpose` flags, and `type.size() * slots`
otherwise, in both cases whenever that product lies between `INT_MIN` and
`INT_MAX`. A 2D load made with width 32, height 8, count 1, `vnni` set and
`transpose` not set has `access_size()` equal to `type.size() * 32 * 8 * 1`
when that does not exceed `INT_MAX`. -/
theorem access_size_spec (s : send_t expr_t) :
    (s.op = send_op_t.load_2d ∨ s.op = send_op_t.store_2d →
      (INT_MIN ≤ (s.type.size : Int) * s.block_2d_info.width * s.block_2d_info.height
          * s.block_2d_info.count →
        (s.type.size : Int) * s.block_2d_info.width * s.block_2d_info.height
          * s.block_2d_info.count ≤ INT_MAX →
        s.access_size
          = s.type.size * s.block_2d_info.width * s.block_2d_info.height
            * s.block_2d_info.count) ∧
      ∀ (slots : Int) (vnni transpose : Bool),
        send_t.access_size
          { s with slots := slots,
                   block_2d_info :=
                     { s.block_2d_info with vnni := vnni, transpose := transpose } }
          = s.access_size) ∧
    (¬ (s.op = send_op_t.load_2d ∨ s.op = send_op_t.store_2d) →
      INT_MIN ≤ (s.type.size : Int) * s.slots → (s.type.size : Int) * s.slots ≤ INT_MAX →
        s.access_size = s.type.size * s.slots) ∧
    (∀ (hw : ngen.HW) (type : type_t) (surface_width surface_height surface_pitch : Int)
      (x y : expr_t), (type.size : Int) * 32 * 8 * 1 ≤ INT_MAX →
      ∃ d : send_t expr_t,
        send_t.make_2d hw send_op_t.load_2d type surface_width surface_height surface_pitch
          x y 32 8 1 true false = some d ∧
        d.access_size = type.size * 32 * 8 * 1) := by
  have hwrap : ∀ a b c d : Int,
      int_mul (int_mul (int_mul a b) c) d = int32 (a * b * c * d) := by
    intro a b c d
    simp only [int_mul, int32_mul_int32]
  refine ⟨?_, ?_, ?_⟩
  · intro hop
    have h2d : s.is_2d = true := by
      rcases hop with h | h <;> simp [send_t.is_2d, send_t.is_load_2d, send_t.is_store_2d, h]
    have hacc : s.access_size
        = int32 (s.type.size * s.block_2d_info.width * s.block_2d_info.height
            * s.block_2d_info.count) := by
      simp [send_t.access_size, h2d, hwrap]
    refine ⟨fun h₁ h₂ => by rw [hacc]; exact int32_eq_self _ h₁ h₂, ?_⟩
    intro slots vnni transpose
    have h2d2 : send_t.is_2d
        { s with slots := slots,
                 block_2d_info :=
                   { s.block_2d_info with vnni := vnni, transpose := transpose } } = true := by
      rcases hop with h | h <;> simp [send_t.is_2d, send_t.is_load_2d, send_t.is_store_2d, h]
    simp [send_t.access_size, h2d, h2d2]
  · intro hop
    have h2d : s.is_2d = false := by
      simp only [not_or] at hop
      simp [send_t.is_2d, send_t.is_load_2d, send_t.is_store_2d, hop.1, hop.2]
    have hacc : s.access_size = int32 (s.type.size * s.slots) := by
      simp [send_t.access_size, h2d, int_mul]
    intro h₁ h₂
    rw [hacc]
    exact int32_eq_self _ h₁ h₂
  · intro hw type sw sh sp x y hfit
    refine ⟨_, by simp [send_t.make_2d, ir_assert, send_t.is_store_2d]; rfl, ?_⟩
    have hnn : (0 : Int) ≤ (type.size : Int) * 32 * 8 * 1 := by positivity
    simp only [send_t.access_size, send_t.is_2d, send_t.is_load_2d, beq_self_eq_true,
      Bool.true_or, if_true, hwrap]
    exact int32_eq_self _ (le_trans (by decide) hnn) hfit

/-! ## Equality, attribute by attribute -/

theorem block_2d_info_t.eq_iff (ir : ir_utils_t expr_t) (g h : block_2d_info_t expr_t) :
    g.eq ir h = true ↔
      (g.surface_width = 0 ∧ h.surface_width = 0) ∨
      (g.surface_width ≠ 0 ∧ h.surface_width ≠ 0 ∧
        g.surface_width = h.surface_width ∧ g.surface_height = h.surface_height ∧
        g.surface_pitch = h.surface_pitch ∧ ir.is_same g.x h.x = true ∧
        ir.is_same g.y h.y = true ∧ g.width = h.width ∧ g.height = h.height ∧
        g.count = h.count ∧ g.vnni = h.vnni ∧ g.transpose = h.transpose) := by
  unfold block_2d_info_t.eq block_2d_info_t.is_empty
  by_cases hg : g.surface_width = 0 <;> by_cases hh : h.surface_width = 0 <;>
    simp [hg, hh, and_assoc]

/-- C11: two descriptors are `is_equal` if and only if all their attributes
match: hardware generation, operation kind, addressing mode, element type,
slots, the `is_lsc` flag and the 2D tile geometry, where two geometries match
when both are empty (`surface_width` 0) or when both are non-empty and agree
on surface width, height and pitch, on `x` and `y` (as `is_same` expressions),
on width, height and count and on the `vnni` and `transpose` flags; an empty
geometry never matches a non-empty one. -/
theorem is_equal_iff_attributes_match (ir : ir_utils_t expr_t) (a b : send_t expr_t) :
    (a.is_equal ir b = true ↔
      a.hw = b.hw ∧ a.op = b.op ∧ a.address = b.address ∧ a.type = b.type ∧
      a.slots = b.slots ∧ a.is_lsc = b.is_lsc ∧
      ((a.block_2d_info.surface_width = 0 ∧ b.block_2d_info.surface_width = 0) ∨
        (a.block_2d_info.surface_width ≠ 0 ∧ b.block_2d_info.surface_width ≠ 0 ∧
          a.block_2d_info.surface_width = b.block_2d_info.surface_width ∧
          a.block_2d_info.surface_height = b.block_2d_info.surface_height ∧
          a.block_2d_info.surface_pitch = b.block_2d_info.surface_pitch ∧
          ir.is_same a.block_2d_info.x b.block_2d_info.x = true ∧
          ir.is_same a.block_2d_info.y b.block_2d_info.y = true ∧
          a.block_2d_info.width = b.block_2d_info.width ∧
          a.block_2d_info.height = b.block_2d_info.height ∧
          a.block_2d_info.count = b.block_2d_info.count ∧
          a.block_2d_info.vnni = b.block_2d_info.vnni ∧
          a.block_2d_info.transpose = b.block_2d_info.transpose))) ∧
    (a.block_2d_info.surface_width = 0 → b.block_2d_info.surface_width ≠ 0 →
      a.is_equal ir b = false ∧ b.is_equal ir a = false) := by
  constructor
  · simp only [send_t.is_equal, Bool.and_eq_true, beq_iff_eq, block_2d_info_t.eq_iff, and_assoc]
  · intro ha hb
    have h1 : block_2d_info_t.eq ir a.block_2d_info b.block_2d_info = false := by
      simp [block_2d_info_t.eq, block_2d_info_t.is_empty, ha, hb]
    have h2 : block_2d_info_t.eq ir b.block_2d_info a.block_2d_info = false := by
      simp [block_2d_info_t.eq, block_2d_info_t.is_empty, ha, hb]
    simp [send_t.is_equal, h1, h2]

/-! ## Mask size is defined and positive -/

/-- C12: `mask_size()` always returns through its 2D, block or scattered
branch and never reaches the `ir_error_not_expected()` fallback; and on a
non-2D descriptor whose element type has positive size the returned mask size
is 4 or `type.size()` and is positive, so `nmasks()` never divides by zero:
whatever the dividend, the divisor test of `safe_divide` passes. -/
theorem mask_size_defined_pos (ng : ngen_t) (s : send_t expr_t) :
    (s.mask_size ng ≠ none) ∧
    (s.mask_size ng =
      if s.is_2d = true then some s.access_size
      else if s.is_block = true then
        (if s.is_xe_hpc_plus ng = true then some (s.type.size : Int) else some 4)
      else some (s.type.size : Int)) ∧
    (s.is_2d = false → s.is_block = false → s.is_scattered = true) ∧
    (s.is_2d = false → 0 < s.type.size →
      ∃ ms : Int, s.mask_size ng = some ms ∧ (ms = 4 ∨ ms = s.type.size) ∧ 0 < ms ∧
        ms ≠ 0 ∧
        ∀ a : Int, ir_assert (ms != 0 && a.tmod ms == 0) = ir_assert (a.tmod ms == 0)) := by
  have hform : s.mask_size ng =
      if s.is_2d = true then some s.access_size
      else if s.is_block = true then
        (if s.is_xe_hpc_plus ng = true then some (s.type.size : Int) else some 4)
      else some (s.type.size : Int) := by
    unfold send_t.mask_size send_t.is_scattered
    cases s.is_2d <;> cases s.is_block <;> cases s.is_xe_hpc_plus ng <;> simp
  refine ⟨?_, hform, ?_, ?_⟩
  · rw [hform]
    cases s.is_2d <;> cases s.is_block <;> cases s.is_xe_hpc_plus ng <;> simp
  · intro h2d hb
    simp [send_t.is_scattered, h2d, hb]
  · intro h2d hsz
    have hszi : (0 : Int) < (s.type.size : Int) := by exact_mod_cast hsz
    have key : ∀ ms : Int, s.mask_size ng = some ms → (ms = 4 ∨ ms = s.type.size) →
        ∃ ms : Int, s.mask_size ng = some ms ∧ (ms = 4 ∨ ms = s.type.size) ∧ 0 < ms ∧
          ms ≠ 0 ∧
          ∀ a : Int, ir_assert (ms != 0 && a.tmod ms == 0) = ir_assert (a.tmod ms == 0) := by
      intro ms hms hor
      have hpos : 0 < ms := by rcases hor with h | h <;> omega
      have hne : ms ≠ 0 := by omega
      have hb : (ms != 0) = true := bne_iff_ne.mpr hne
      exact ⟨ms, hms, hor, hpos, hne, fun a => by rw [hb, Bool.true_and]⟩
    cases hb : s.is_block <;> cases hx : s.is_xe_hpc_plus ng
    · exact key _ (by simp [hform, h2d, hb]) (Or.inr rfl)
    · exact key _ (by simp [hform, h2d, hb]) (Or.inr rfl)
    · exact key 4 (by simp [hform, h2d, hb, hx]) (Or.inl rfl)
    · exact key _ (by simp [hform, h2d, hb, hx]) (Or.inr rfl)

/-! ## Payload covers the access -/

/-- C13, as stated, fails when the round-up leaves the range of `int`: with
2^29 - 1 slots of a 4-byte scalar that is not of kind `byte` (non-2D, 32-byte
registers) `access_size()` is 2147483644 and `payload_size()` returns
-2147483616, which is smaller. -/
theorem payload_size_ge_access_size_counterexample :
    example_wide_access.is_2d = false ∧ 0 ≤ example_wide_access.slots ∧
    example_wide_access.type.kind ≠ type_kind_t.byte ∧
    0 < example_wide_access.grf_size example_ngen ∧
    example_wide_access.access_size = 2147483644 ∧
    example_wide_access.payload_size example_ngen = some (-2147483616) ∧
    ¬ (example_wide_access.access_size ≤ -2147483616) := by
  decide

/-- C13, amended: on hardware whose register byte-width is positive, the
payload buffer is never smaller than the memory transferred as long as the
round-up stays within `int`: `payload_size()` returns a value that is at least
`access_size()` on every 2D descriptor with non-negative access size for which
`access_size() + grf_size() - 1` does not exceed `INT_MAX`, and on every
non-2D descriptor with non-negative slots whose element type is not of kind
`byte`, or is of kind `byte` with size at most 4 bytes, for which
`payload_type_stride() * slots + grf_size() - 1` does not exceed `INT_MAX`. -/
theorem payload_size_ge_access_size (ng : ngen_t) (s : send_t expr_t)
    (hgrf : 0 < s.grf_size ng)
    (h : (s.is_2d = true ∧ 0 ≤ s.access_size ∧
        s.access_size + s.grf_size ng - 1 ≤ INT_MAX) ∨
      (s.is_2d = false ∧ 0 ≤ s.slots ∧
        (s.type.kind ≠ type_kind_t.byte ∨
          (s.type.kind = type_kind_t.byte ∧ s.type.size ≤ 4)) ∧
        ∀ stride : Int, s.payload_type_stride = some stride →
          stride * s.slots + s.grf_size ng - 1 ≤ INT_MAX)) :
    ∃ p : Int, s.payload_size ng = some p ∧ s.access_size ≤ p := by
  rcases h with ⟨h2d, hacc, hfit⟩ | ⟨h2d, hslots, hk, hfit⟩
  · exact ⟨utils.rnd_up s.access_size (s.grf_size ng), by simp [send_t.payload_size, h2d],
      utils.le_rnd_up _ _ hacc hgrf hfit⟩
  · have hsz : (0 : Int) ≤ (s.type.size : Int) := Int.ofNat_nonneg _
    have hnn0 : 0 ≤ (s.type.size : Int) * s.slots := Int.mul_nonneg hsz hslots
    have key : ∀ stride : Int, (s.type.size : Int) ≤ stride →
        s.payload_type_stride = some stride →
        ∃ p : Int, s.payload_size ng = some p ∧ s.access_size ≤ p := by
      intro stride hle hstride
      have hf := hfit stride hstride
      have hnn : 0 ≤ stride * s.slots := Int.mul_nonneg (by omega) hslots
      have h1 : (s.type.size : Int) * s.slots ≤ stride * s.slots :=
        Int.mul_le_mul_of_nonneg_right hle hslots
      have hmul : int_mul stride s.slots = stride * s.slots :=
        int_mul_eq _ _ (le_trans (by decide) hnn) (by omega)
      have hacc : s.access_size = s.type.size * s.slots := by
        have h2 : int_mul (s.type.size : Int) s.slots = s.type.size * s.slots :=
          int_mul_eq _ _ (le_trans (by decide) hnn0) (by omega)
        simp [send_t.access_size, h2d, h2]
      refine ⟨utils.rnd_up (stride * s.slots) (s.grf_size ng), ?_, ?_⟩
      · simp [send_t.payload_size, h2d, hstride, hmul]
      · rw [hacc]
        exact le_trans h1 (utils.le_rnd_up _ _ hnn hgrf hf)
    rcases hk with hk | ⟨hk, hle⟩
    · exact key s.type.size (le_refl _)
        (by simp [send_t.payload_type_stride, ir_assert, h2d, hk])
    · exact key 4 (by exact_mod_cast hle)
        (by simp [send_t.payload_type_stride, ir_assert, h2d, hk])

/-- The 2D load of the examples (1024 bytes accessed, 64-byte registers) and
the pair of `byte` elements (16 slots of 2 bytes, stride 4, 32-byte registers)
both have a payload that covers the access. -/
theorem payload_size_ge_access_size_witness :
    (∃ p : Int, example_2d.payload_size example_ngen = some p ∧ example_2d.access_size ≤ p) ∧
    (∃ p : Int, example_byte_pair.payload_size example_ngen = some p ∧
      example_byte_pair.access_size ≤ p) :=
  ⟨payload_size_ge_access_size example_ngen example_2d (by decide)
      (Or.inl ⟨by decide, by decide, by decide⟩),
    payload_size_ge_access_size example_ngen example_byte_pair (by decide)
      (Or.inr ⟨by decide, by decide, Or.inr ⟨by decide, by decide⟩, by
        intro stride h
        have h4 : example_byte_pair.payload_type_stride = some 4 := by decide
        rw [h4] at h
        cases h
        decide⟩)⟩

end

end dnnl.impl.gpu.jit
